import Mathlib

/-!
Verification development for the craft-parts lifecycle manager
(`src/craft_parts/lifecycle_manager.py`).

The file shallowly embeds the manager's construction and public operations.
Python mapping values are modelled by `PyValue`; Python exceptions become
`Except CraftError`; side effects (directory/state creation, calls into the
package-repository collaborator) are modelled by an explicit `Effect` trace.
Collaborators that live outside the visible source (the plugin registry,
the `ProjectInfo` helper, the `Sequencer` and the `Executor`) are modelled
from the specification and marked as such in their doc comments.
-/

namespace CraftParts

/-- Step of the fixed parts pipeline, with total order PULL < BUILD < STAGE < PRIME. -/
inductive Step where
  | PULL
  | BUILD
  | STAGE
  | PRIME
  deriving DecidableEq, Repr

/-- Numeric rank of a step in the fixed order. -/
def Step.toNat : Step → Nat
  | .PULL => 0
  | .BUILD => 1
  | .STAGE => 2
  | .PRIME => 3

/-- All steps in pipeline order. -/
def allSteps : List Step := [Step.PULL, Step.BUILD, Step.STAGE, Step.PRIME]

/-- Action kind, modelled from the spec's Action data model (RUN, RERUN, SKIP, REAPPLY). -/
inductive ActionType where
  | RUN
  | RERUN
  | SKIP
  | REAPPLY
  deriving DecidableEq, Repr

/-- Planned unit of work: part name, step, kind and optional reason. -/
structure Action where
  part_name : String
  step : Step
  action_type : ActionType
  reason : Option String
  deriving DecidableEq, Repr

/-- Embedding of the Python values that may appear in a YAML-loaded part
specification (strings, numbers, booleans, None, lists, dictionaries). -/
inductive PyValue where
  | none
  | str (s : String)
  | int (n : Int)
  | bool (b : Bool)
  | list (xs : List PyValue)
  | dict (entries : List (String × PyValue))

/-- Python truthiness of a value (`bool(v)`): None, "", 0, False, and empty
containers are falsy. -/
def truthy : PyValue → Bool
  | .none => false
  | .str s => s != ""
  | .int n => n != 0
  | .bool b => b
  | .list xs => !xs.isEmpty
  | .dict es => !es.isEmpty

/-- Dictionary test (`isinstance(v, dict)`). -/
def PyValue.isDict : PyValue → Bool
  | .dict _ => true
  | _ => false

/-- Embedding of `dict.get(key, default)` on an association list. -/
def dictGet (entries : List (String × PyValue)) (key : String) (dflt : PyValue) : PyValue :=
  match entries.lookup key with
  | some v => v
  | Option.none => dflt

/-- Removal of a key from a dictionary, used to state that a falsy `plugin`
entry behaves as if the key were absent. -/
def eraseKey (key : String) (entries : List (String × PyValue)) : List (String × PyValue) :=
  entries.filter (fun e => e.fst != key)

/-- Embedding of the errors raised by `lifecycle_manager.py` (module
`craft_parts.errors` plus the builtin TypeError/ValueError/AttributeError). -/
inductive SpecErrorPayload where
  | errorList (errors : List String)
  | message (msg : String)

/-- Errors surfaced during manager construction and planning. -/
inductive CraftError where
  | invalidApplicationName (name : String)
  | typeError (msg : String)
  | valueError (msg : String)
  | attributeError (msg : String)
  | partSpecificationError (part_name : String) (payload : SpecErrorPayload)
  | undefinedPlugin (part_name : String)
  | invalidPlugin (plugin_name : PyValue) (part_name : String)
  | partNotFound (part_name : String)

/-- Failure of `properties_class.unmarshal`: a pydantic ValidationError carrying
a structured error list, or a plain ValueError carrying a message. -/
inductive UnmarshalErr where
  | validationError (errors : List String)
  | valueError (msg : String)

/-- Modelled from the spec: a plugin known to the plugin collaborator exposes a
name and a property schema validator (`properties_class.unmarshal`). -/
structure PluginClass where
  name : String
  unmarshal : PyValue → Except UnmarshalErr PyValue

/-- Modelled from the spec: the plugin collaborator, a registry of known plugins
plus `strip_plugin_properties`, which removes plugin-specific keys from a spec. -/
structure PluginRegistry where
  plugins : List PluginClass
  strip_properties : PyValue → String → PyValue

/-- Embedding of `plugins.get_plugin_class(name)`: a dictionary lookup keyed by
plugin name that raises ValueError when the name is unknown. A non-string key
never equals a string dictionary key, so it is never found. -/
def get_plugin_class (reg : PluginRegistry) (plugin_name : PyValue) : Except Unit PluginClass :=
  match plugin_name with
  | .str s =>
    match reg.plugins.find? (fun c => c.name == s) with
    | some c => Except.ok c
    | Option.none => Except.error ()
  | _ => Except.error ()

/-- Project work directories (`ProjectDirs`); path computation only, no
directory is created at construction time. -/
structure ProjectDirs where
  work_dir : String

/-- Modelled from the spec: immutable project-wide configuration snapshot,
constructed once per manager. `target_arch` defaults to the host architecture
when `arch` is empty. -/
structure ProjectInfo where
  application_name : String
  cache_dir : String
  arch : String
  base : String
  parallel_build_count : Nat
  project_dirs : ProjectDirs
  custom_args : List (String × PyValue)
  target_arch : String

/-- A part: name, residual spec, declared ordering dependencies, validated
plugin properties and the project directories. The `after` list is modelled
from the spec's Part data model (the part-spec unmarshalling is external). -/
structure Part where
  name : String
  spec : PyValue
  after : List String
  plugin_properties : PyValue
  project_dirs : ProjectDirs

/-- Modelled from the spec: extraction of the declared `after` relation from a
raw part specification (list of part names, empty when absent). -/
def specAfter (entries : List (String × PyValue)) : List String :=
  match entries.lookup "after" with
  | some (.list vs) =>
    vs.filterMap (fun v => match v with
      | .str s => some s
      | _ => Option.none)
  | _ => []

/-- Embedding of lines 187-192 of `_build_part`: `spec.get("plugin", "")`,
the falsy test, and the fallback to the part's own name. Returns the flag
`part_name_as_plugin_name` and the resolved plugin name value. -/
def resolve_plugin_name (name : String) (entries : List (String × PyValue)) :
    Bool × PyValue :=
  let plugin_value := dictGet entries "plugin" (.str "")
  let part_name_as_plugin_name := !truthy plugin_value
  (part_name_as_plugin_name,
    if part_name_as_plugin_name then .str name else plugin_value)

/-- Embedding of the tail of `_build_part` (lines 203-218): unmarshal the
plugin properties through the resolved plugin class, mapping a
ValidationError to a `PartSpecificationError` with the error list and a
ValueError to one with the message, then strip plugin properties and build
the `Part`. -/
def validate_and_make_part (reg : PluginRegistry) (plugin_class : PluginClass)
    (plugin_name : PyValue) (name : String) (entries : List (String × PyValue))
    (project_dirs : ProjectDirs) : Except CraftError Part :=
  match plugin_class.unmarshal (.dict entries) with
  | Except.error (.validationError errs) =>
    Except.error (.partSpecificationError name (.errorList errs))
  | Except.error (.valueError msg) =>
    Except.error (.partSpecificationError name (.message msg))
  | Except.ok properties =>
    let plugin_name_str := match plugin_name with
      | .str s => s
      | _ => ""
    let stripped := reg.strip_properties (.dict entries) plugin_name_str
    Except.ok { name := name, spec := stripped, after := specAfter entries,
                plugin_properties := properties, project_dirs := project_dirs }

/-- Embedding of `_build_part(name, spec, project_dirs)`: reject non-mapping
specs with a malformed-definition `PartSpecificationError`, resolve the
plugin (explicit field or part name), map an unknown plugin to
`UndefinedPlugin` when the name was defaulted and to `InvalidPlugin` when it
was explicit, then validate properties and build the part. -/
def build_part (reg : PluginRegistry) (project_dirs : ProjectDirs)
    (name : String) (spec : PyValue) : Except CraftError Part :=
  match spec with
  | .dict entries =>
    let r := resolve_plugin_name name entries
    match get_plugin_class reg r.2 with
    | Except.error _ =>
      if r.1 then Except.error (.undefinedPlugin name)
      else Except.error (.invalidPlugin r.2 name)
    | Except.ok plugin_class =>
      validate_and_make_part reg plugin_class r.2 name entries project_dirs
  | _ =>
    Except.error (.partSpecificationError name (.message "part definition is malformed"))

/-- Whether an `Except` value is a success. -/
def exceptOk {ε α : Type} : Except ε α → Bool
  | Except.ok _ => true
  | Except.error _ => false

/-- Modelled from the spec: a persisted step record holds the fingerprint at
completion time and the outdated flag set by cascading invalidation. -/
structure StepRecord where
  fingerprint : String
  outdated : Bool
  deriving DecidableEq, Repr

/-- Modelled from the spec: the state store, keyed by (part name, step). -/
abbrev StateStore := List ((String × Step) × StepRecord)

/-- Side effects observable outside the embedded state: construction events and
calls into the package-repository and plugin collaborators. -/
inductive Effect where
  | createdProjectDirs
  | createdProjectInfo
  | builtPart (part_name : String)
  | createdSequencer
  | createdExecutor
  | refreshStagePackages (cache_dir : String) (target_arch : String)
  | refreshBuildPackages
  | markedOutdated (part_name : String) (step : Step)
  | erasedArtifacts (part_name : String) (step : Step)
  | invokedPlugin (part_name : String) (step : Step)
  | reappliedFilter (part_name : String) (step : Step)
  deriving DecidableEq, Repr

/-- Package-repository refresh calls among the effects. -/
def Effect.isRefresh : Effect → Bool
  | .refreshStagePackages _ _ => true
  | .refreshBuildPackages => true
  | _ => false

/-- External environment of the manager: the plugin registry, the host
architecture, the durable state on disk, and the external fingerprint and
file-set-change oracles described by the spec's Fingerprint data model. -/
structure Env where
  plugins : PluginRegistry
  host_arch : String
  disk_state : StateStore
  fingerprint : Part → Step → String
  files_changed : Part → Step → Bool

/-- Modelled from the spec: the Sequencer owns the part list, the project info
and an in-memory view of the state store. -/
structure SequencerState where
  part_list : List Part
  project_info : ProjectInfo
  store : StateStore

/-- Modelled from the spec: the Executor owns the part list, the project info,
the extra build packages and its view of the state store. -/
structure ExecutorState where
  part_list : List Part
  project_info : ProjectInfo
  extra_build_packages : Option (List String)
  store : StateStore

/-- Modelled from the spec: an execution context wraps one Executor instance. -/
structure ExecutionContext where
  executor : ExecutorState

/-- State of a `LifecycleManager` instance after a successful constructor run,
mirroring the instance attributes set in `__init__`. -/
structure LifecycleManager where
  part_list : List Part
  application_name : String
  target_arch : String
  sequencer : SequencerState
  executor : ExecutorState
  project_info : ProjectInfo

/-- Membership of letters in the regex class [A-Za-z]. -/
def isAsciiLetter (c : Char) : Bool :=
  ('A' ≤ c && c ≤ 'Z') || ('a' ≤ c && c ≤ 'z')

/-- Membership in the regex class [0-9A-Za-z_]. -/
def isNameChar (c : Char) : Bool :=
  isAsciiLetter c || ('0' ≤ c && c ≤ '9') || c == '_'

/-- Strict language of the regular expression ^[A-Za-z][0-9A-Za-z_]*$ where $
denotes the end of the input: a letter followed by letters, digits or
underscores. -/
def strict_app_name_ok (s : String) : Bool :=
  match s.data with
  | [] => false
  | c :: cs => isAsciiLetter c && cs.all isNameChar

/-- Embedding of `re.match("^[A-Za-z][0-9A-Za-z_]*$", s)` under Python
semantics, where `$` matches at the end of the string or just before a single
trailing newline: the code therefore also accepts a valid name followed by
one final newline character. -/
def matches_app_name (s : String) : Bool :=
  match s.data with
  | [] => false
  | c :: cs =>
    isAsciiLetter c &&
      (cs.all isNameChar ||
        (!cs.isEmpty && cs.getLast? == some (Char.ofNat 10) && cs.dropLast.all isNameChar))

/-- Construction of the `ProjectInfo` value from the constructor arguments,
as performed once inside `__init__`. -/
def make_project_info (env : Env) (application_name cache_dir work_dir arch base : String)
    (parallel_build_count : Nat) (custom_args : List (String × PyValue)) : ProjectInfo :=
  { application_name := application_name
    cache_dir := cache_dir
    arch := arch
    base := base
    parallel_build_count := parallel_build_count
    project_dirs := { work_dir := work_dir }
    custom_args := custom_args
    target_arch := if arch == "" then env.host_arch else arch }

/-- Embedding of the part-building loop of `__init__`: builds parts in
declaration order, recording a `builtPart` effect per part built and
propagating the first construction error. -/
def build_parts (reg : PluginRegistry) (project_dirs : ProjectDirs) :
    List (String × PyValue) → List Effect × Except CraftError (List Part)
  | [] => ([], Except.ok [])
  | (name, spec) :: rest =>
    match build_part reg project_dirs name spec with
    | Except.error e => ([], Except.error e)
    | Except.ok p =>
      let r := build_parts reg project_dirs rest
      (Effect.builtPart name :: r.1,
        match r.2 with
        | Except.error e => Except.error e
        | Except.ok ps => Except.ok (p :: ps))

/-- Phase of `__init__` after the three argument checks pass: create the
project directories and project info, build every part, then create the
Sequencer and the Executor. -/
def init_after_checks (env : Env) (entries : List (String × PyValue))
    (application_name cache_dir work_dir arch base : String)
    (parallel_build_count : Nat) (extra_build_packages : Option (List String))
    (custom_args : List (String × PyValue)) :
    List Effect × Except CraftError LifecycleManager :=
  let project_dirs : ProjectDirs := { work_dir := work_dir }
  let project_info := make_project_info env application_name cache_dir work_dir arch base
    parallel_build_count custom_args
  let head_effects := [Effect.createdProjectDirs, Effect.createdProjectInfo]
  match dictGet entries "parts" (.dict []) with
  | .dict parts_entries =>
    let built := build_parts env.plugins project_dirs parts_entries
    match built.2 with
    | Except.error e => (head_effects ++ built.1, Except.error e)
    | Except.ok part_list =>
      (head_effects ++ built.1 ++ [Effect.createdSequencer, Effect.createdExecutor],
        Except.ok
          { part_list := part_list
            application_name := application_name
            target_arch := project_info.target_arch
            sequencer := { part_list := part_list, project_info := project_info,
                           store := env.disk_state }
            executor := { part_list := part_list, project_info := project_info,
                          extra_build_packages := extra_build_packages,
                          store := env.disk_state }
            project_info := project_info })
  | _ =>
    (head_effects, Except.error (.attributeError "parts data has no items method"))

/-- Embedding of `LifecycleManager.__init__`: validate the application name,
require `all_parts` to be a dictionary, require a `parts` key, and only then
construct directories, project info, parts, Sequencer and Executor. The
effect trace records what was touched before any failure. -/
def lifecycle_manager_init (env : Env) (all_parts : PyValue)
    (application_name cache_dir work_dir arch base : String)
    (parallel_build_count : Nat) (extra_build_packages : Option (List String))
    (custom_args : List (String × PyValue)) :
    List Effect × Except CraftError LifecycleManager :=
  if !matches_app_name application_name then
    ([], Except.error (.invalidApplicationName application_name))
  else
    match all_parts with
    | .dict entries =>
      if (entries.lookup "parts").isNone then
        ([], Except.error (.valueError "parts definition is missing"))
      else
        init_after_checks env entries application_name cache_dir work_dir arch base
          parallel_build_count extra_build_packages custom_args
    | _ => ([], Except.error (.typeError "parts definition must be a dictionary"))

/-- Lookup of a step record in the state store. -/
def storeLookup (store : StateStore) (key : String × Step) : Option StepRecord :=
  List.lookup key store

/-- Modelled from the spec: `markOutdated` flips a record's outdated flag
without deleting it. -/
def mark_outdated (store : StateStore) (key : String × Step) : StateStore :=
  store.map (fun e => if e.1 = key then (e.1, { e.2 with outdated := true }) else e)

/-- Modelled from the spec: `recordSuccess` writes a completed record with the
new fingerprint and a cleared outdated flag. -/
def record_success (store : StateStore) (part_name : String) (step : Step)
    (fp : String) : StateStore :=
  ((part_name, step), { fingerprint := fp, outdated := false }) ::
    store.filter (fun e => e.1 != (part_name, step))

/-- Steps from PULL up to and including the target step. -/
def steps_through (target : Step) : List Step :=
  allSteps.filter (fun s => s.toNat ≤ target.toNat)

/-- Modelled from the spec: stable topological order over parts — repeatedly
emit the first part (in declaration order) whose `after` targets were all
already emitted. Runs on fuel; a cycle or a dangling reference leaves the
remaining parts in declaration order. -/
def topological_sort (fuel : Nat) (done_names : List String) (pending : List Part) :
    List Part :=
  match fuel with
  | 0 => pending
  | Nat.succ fuel =>
    match pending.find? (fun p => p.after.all (fun a => done_names.contains a)) with
    | Option.none => pending
    | some p =>
      p :: topological_sort fuel (p.name :: done_names)
        (pending.filter (fun q => q.name != p.name))

/-- Modelled from the spec: resolution of the selected part set — all parts
when no names are given, the named subset otherwise, failing with a
part-not-found error on an unknown name with no state mutated. -/
def resolve_part_set (part_list : List Part) (part_names : Option (List String)) :
    Except CraftError (List Part) :=
  match part_names with
  | Option.none => Except.ok part_list
  | some ns =>
    match ns.find? (fun n => part_list.all (fun p => p.name != n)) with
    | some n => Except.error (.partNotFound n)
    | Option.none => Except.ok (part_list.filter (fun p => ns.contains p.name))

/-- Modelled from the spec: the decision table for one (part, step) — no
record means RUN; an outdated record or a fingerprint mismatch means RERUN;
a matching record at STAGE/PRIME whose file set changed means REAPPLY;
otherwise SKIP. -/
def step_action_type (env : Env) (store : StateStore) (p : Part) (s : Step) : ActionType :=
  match storeLookup store (p.name, s) with
  | Option.none => .RUN
  | some r =>
    if r.outdated then .RERUN
    else if r.fingerprint != env.fingerprint p s then .RERUN
    else if (s == .STAGE || s == .PRIME) && env.files_changed p s then .REAPPLY
    else .SKIP

/-- Modelled from the spec: the keys pre-emptively marked outdated when a
part's step resolves to RUN/RERUN — every later step of the same part, and
the STAGE/PRIME steps of every other part. -/
def cascade_keys (part_list : List Part) (p : Part) (s : Step) : List (String × Step) :=
  ((allSteps.filter (fun t => s.toNat < t.toNat)).map (fun t => (p.name, t)))
    ++ (part_list.filter (fun q => q.name != p.name)).flatMap
        (fun q => [(q.name, Step.STAGE), (q.name, Step.PRIME)])

/-- One pass of the planning loop over the ordered parts at a fixed step,
threading the store through the cascading-invalidation marks. -/
def plan_parts_at_step (env : Env) (part_list : List Part) (s : Step) :
    List Part → StateStore → List Action × List (String × Step) × StateStore
  | [], store => ([], [], store)
  | p :: rest, store =>
    let ty := step_action_type env store p s
    let marks := if ty == ActionType.RUN || ty == ActionType.RERUN then
        cascade_keys part_list p s
      else []
    let store1 := marks.foldl mark_outdated store
    let r := plan_parts_at_step env part_list s rest store1
    ({ part_name := p.name, step := s, action_type := ty, reason := Option.none } :: r.1,
      marks ++ r.2.1, r.2.2)

/-- The planning loop over all steps from PULL through the target: for each
step, each part in topological order is examined. -/
def plan_all_steps (env : Env) (part_list : List Part) (ordered : List Part) :
    List Step → StateStore → List Action × List (String × Step) × StateStore
  | [], store => ([], [], store)
  | s :: rest, store =>
    let r1 := plan_parts_at_step env part_list s ordered store
    let r2 := plan_all_steps env part_list ordered rest r1.2.2
    (r1.1 ++ r2.1, r1.2.1 ++ r2.2.1, r2.2.2)

/-- Modelled from the spec: `Sequencer.plan(targetStep, partNames)` — resolve
the part set, order it topologically, walk every step from PULL through the
target over the ordered parts, and return the actions together with the
mark-outdated effects and the updated store. -/
def Sequencer.plan (env : Env) (seq : SequencerState) (target : Step)
    (part_names : Option (List String)) :
    Except CraftError (List Action) × List Effect × SequencerState :=
  match resolve_part_set seq.part_list part_names with
  | Except.error e => (Except.error e, [], seq)
  | Except.ok selected =>
    let ordered := topological_sort selected.length [] selected
    let r := plan_all_steps env seq.part_list ordered (steps_through target) seq.store
    (Except.ok r.1, (r.2.1).map (fun k => Effect.markedOutdated k.1 k.2),
      { seq with store := r.2.2 })

/-- Modelled from the spec: `Sequencer.reload_state` re-reads the durable
state from disk, discarding the in-memory view. -/
def Sequencer.reload_state (env : Env) (seq : SequencerState) : SequencerState :=
  { seq with store := env.disk_state }

/-- Modelled from the spec: `Executor.run(action)` — SKIP is a no-op, RUN
invokes the plugin and records success, RERUN first erases the step's stale
artifacts, REAPPLY redoes only the filtering sub-operation. -/
def Executor.run (env : Env) (ex : ExecutorState) (a : Action) :
    List Effect × ExecutorState :=
  match ex.part_list.find? (fun p => p.name == a.part_name) with
  | Option.none => ([], ex)
  | some p =>
    match a.action_type with
    | .SKIP => ([], ex)
    | .RUN =>
      ([Effect.invokedPlugin p.name a.step],
        { ex with store := record_success ex.store p.name a.step (env.fingerprint p a.step) })
    | .RERUN =>
      ([Effect.erasedArtifacts p.name a.step, Effect.invokedPlugin p.name a.step],
        { ex with store := record_success ex.store p.name a.step (env.fingerprint p a.step) })
    | .REAPPLY =>
      ([Effect.reappliedFilter p.name a.step],
        { ex with store := record_success ex.store p.name a.step (env.fingerprint p a.step) })

/-- Part names selected by `Executor.clean`: all parts when no names are
given, the given names otherwise. -/
def clean_selected (ex : ExecutorState) (part_names : Option (List String)) : List String :=
  match part_names with
  | Option.none => ex.part_list.map (fun p => p.name)
  | some ns => ns

/-- Modelled from the spec: `Executor.clean(initialStep, partNames)` — erase
every step record at or after the initial step for the selected parts and
mark the remaining STAGE/PRIME records of the other parts outdated, since
the shared trees lost contributions. -/
def Executor.clean (ex : ExecutorState) (initial_step : Step)
    (part_names : Option (List String)) : ExecutorState :=
  let selected := clean_selected ex part_names
  let erased := ex.store.filter
    (fun e => !(selected.contains e.1.1 && initial_step.toNat ≤ e.1.2.toNat))
  let invalidated := erased.map
    (fun e =>
      if (e.1.2 == Step.STAGE || e.1.2 == Step.PRIME)
          && initial_step.toNat ≤ e.1.2.toNat then
        (e.1, { e.2 with outdated := true })
      else e)
  { ex with store := invalidated }

/-- Embedding of `LifecycleManager.plan`: delegate to the Sequencer and adopt
its updated state. -/
def LifecycleManager.plan (env : Env) (lm : LifecycleManager) (target : Step)
    (part_names : Option (List String)) :
    Except CraftError (List Action) × List Effect × LifecycleManager :=
  let r := Sequencer.plan env lm.sequencer target part_names
  (r.1, r.2.1, { lm with sequencer := r.2.2 })

/-- Embedding of `LifecycleManager.clean(step=Step.PULL, part_names=None)`:
an omitted step argument (`Option.none`) takes the declared default PULL,
then the call delegates to the Executor. -/
def LifecycleManager.clean (lm : LifecycleManager) (step : Option Step)
    (part_names : Option (List String)) : LifecycleManager :=
  let s := step.getD Step.PULL
  { lm with executor := Executor.clean lm.executor s part_names }

/-- Embedding of `LifecycleManager.refresh_packages_list(system=False)`:
always call the package repository's stage-packages refresh with the
project's cache directory and target architecture, and additionally the
build-packages refresh exactly when `system` is true. -/
def LifecycleManager.refresh_packages_list (lm : LifecycleManager) (system : Bool) :
    List Effect :=
  [Effect.refreshStagePackages lm.project_info.cache_dir lm.target_arch]
    ++ (if system then [Effect.refreshBuildPackages] else [])

/-- Embedding of `LifecycleManager.reload_state`. -/
def LifecycleManager.reload_state (env : Env) (lm : LifecycleManager) : LifecycleManager :=
  { lm with sequencer := Sequencer.reload_state env lm.sequencer }

/-- Embedding of `LifecycleManager.action_executor`: wrap the executor in an
execution context, leaving the manager untouched. -/
def LifecycleManager.action_executor (lm : LifecycleManager) : ExecutionContext :=
  { executor := lm.executor }

/-- Embedding of the `project_info` property. -/
def LifecycleManager.project_info_property (lm : LifecycleManager) : ProjectInfo :=
  lm.project_info

/-! Concrete fixtures used by the scenario theorems and the witnesses. -/

/-- Sample environment: a plugin registry knowing only the `nil` plugin (whose
property schema accepts anything), an amd64 host, and no durable state. -/
def sampleEnv : Env :=
  { plugins := { plugins := [{ name := "nil", unmarshal := fun _ => Except.ok (.dict []) }],
                 strip_properties := fun s _ => s }
    host_arch := "amd64"
    disk_state := []
    fingerprint := fun _ _ => ""
    files_changed := fun _ _ => false }

/-- The two-part specification of the spec's scenario:
foo uses the nil plugin, bar uses the nil plugin and comes after foo. -/
def sample_all_parts : PyValue :=
  .dict [("parts", .dict
    [("foo", .dict [("plugin", .str "nil")]),
     ("bar", .dict [("plugin", .str "nil"), ("after", .list [.str "foo"])])])]

/-- Constructor run on the sample specification. -/
def sample_init : List Effect × Except CraftError LifecycleManager :=
  lifecycle_manager_init sampleEnv sample_all_parts "app" "/cache" "." "" "" 1 Option.none []

/-- Fallback manager value used only when an extraction cannot succeed. -/
def fallback_manager : LifecycleManager :=
  let pi := make_project_info sampleEnv "app" "/cache" "." "" "" 1 []
  { part_list := [], application_name := "app", target_arch := pi.target_arch
    sequencer := { part_list := [], project_info := pi, store := [] }
    executor := { part_list := [], project_info := pi,
                  extra_build_packages := Option.none, store := [] }
    project_info := pi }

/-- The manager built by the sample constructor run. -/
def sample_manager : LifecycleManager :=
  match sample_init.2 with
  | Except.ok lm => lm
  | Except.error _ => fallback_manager

/-- Actions planned for target STAGE on the freshly constructed sample
manager (empty plan on any error, so equality with a non-empty list also
certifies that construction and planning succeeded). -/
def sample_plan_actions : List Action :=
  match sample_init.2 with
  | Except.ok lm =>
    match (LifecycleManager.plan sampleEnv lm Step.STAGE Option.none).1 with
    | Except.ok as => as
    | Except.error _ => []
  | Except.error _ => []

/-- The action order stated by the claim: part-major (all of foo's steps
before any of bar's). -/
def claimed_part_major_actions : List Action :=
  [{ part_name := "foo", step := .PULL, action_type := .RUN, reason := Option.none },
   { part_name := "foo", step := .BUILD, action_type := .RUN, reason := Option.none },
   { part_name := "foo", step := .STAGE, action_type := .RUN, reason := Option.none },
   { part_name := "bar", step := .PULL, action_type := .RUN, reason := Option.none },
   { part_name := "bar", step := .BUILD, action_type := .RUN, reason := Option.none },
   { part_name := "bar", step := .STAGE, action_type := .RUN, reason := Option.none }]

/-! Claim theorems. -/

/-- C1 (counterexample): on the two-part specification with no prior state,
planning to STAGE does not return the claimed part-major action order
(foo:PULL, foo:BUILD, foo:STAGE, bar:PULL, bar:BUILD, bar:STAGE): the
sequencer iterates steps in the outer loop and parts in the inner loop. -/
theorem C1_planned_order_not_part_major :
    sample_plan_actions ≠ claimed_part_major_actions := by
  decide

/-- C1 (amended): on the two-part specification with no prior state, planning
to STAGE returns exactly 6 actions, all of kind RUN, in step-major order:
foo:PULL, bar:PULL, foo:BUILD, bar:BUILD, foo:STAGE, bar:STAGE. -/
theorem C1_plan_returns_six_run_actions_step_major :
    sample_plan_actions
      = [{ part_name := "foo", step := .PULL, action_type := .RUN, reason := Option.none },
         { part_name := "bar", step := .PULL, action_type := .RUN, reason := Option.none },
         { part_name := "foo", step := .BUILD, action_type := .RUN, reason := Option.none },
         { part_name := "bar", step := .BUILD, action_type := .RUN, reason := Option.none },
         { part_name := "foo", step := .STAGE, action_type := .RUN, reason := Option.none },
         { part_name := "bar", step := .STAGE, action_type := .RUN, reason := Option.none }] := by
  decide

/-- C2: when a raw part specification omits the `plugin` field, the plugin is
resolved from the part's own name; when no plugin of that name exists the
construction fails with the undefined-plugin error naming the part, an error
distinct from the invalid-plugin error raised when an explicitly given
plugin identifier is unknown. -/
theorem C2_omitted_plugin_resolves_from_part_name
    (reg : PluginRegistry) (dirs : ProjectDirs) (name : String)
    (entries : List (String × PyValue))
    (homit : entries.lookup "plugin" = Option.none) :
    resolve_plugin_name name entries = (true, PyValue.str name)
    ∧ (get_plugin_class reg (PyValue.str name) = Except.error () →
        build_part reg dirs name (.dict entries)
          = Except.error (.undefinedPlugin name))
    ∧ (∀ cls, get_plugin_class reg (PyValue.str name) = Except.ok cls →
        build_part reg dirs name (.dict entries)
          = validate_and_make_part reg cls (PyValue.str name) name entries dirs)
    ∧ (∀ entries2 v, entries2.lookup "plugin" = some v → truthy v = true →
        get_plugin_class reg v = Except.error () →
        build_part reg dirs name (.dict entries2)
          = Except.error (.invalidPlugin v name))
    ∧ (∀ pv pn, CraftError.undefinedPlugin name ≠ CraftError.invalidPlugin pv pn) := by
  have hres : resolve_plugin_name name entries = (true, PyValue.str name) := by
    simp [resolve_plugin_name, dictGet, homit, truthy]
  refine ⟨hres, ?_, ?_, ?_, ?_⟩
  · intro hget
    simp [build_part, hres, hget]
  · intro cls hget
    simp [build_part, hres, hget]
  · intro entries2 v hv htruthy hget
    have hres2 : resolve_plugin_name name entries2 = (false, v) := by
      simp [resolve_plugin_name, dictGet, hv, htruthy]
    simp [build_part, hres2, hget]
  · intro pv pn h
    exact CraftError.noConfusion h

/-- C2 witness: with a registry knowing only the `nil` plugin, the part `foo`
with an empty specification fails with the undefined-plugin error. -/
theorem C2_witness :
    ([] : List (String × PyValue)).lookup "plugin" = Option.none
    ∧ build_part sampleEnv.plugins { work_dir := "." } "foo" (.dict [])
        = Except.error (.undefinedPlugin "foo") :=
  ⟨rfl, (C2_omitted_plugin_resolves_from_part_name sampleEnv.plugins
      { work_dir := "." } "foo" [] rfl).2.1 rfl⟩

/-- C4: a raw part specification that is not a mapping fails with a
`PartSpecificationError` carrying the part name and the malformed-definition
message; a schema `ValidationError` during property unmarshalling becomes a
`PartSpecificationError` with the part name and the validation error list; a
`ValueError` becomes one with the part name and the free-text message. -/
theorem C4_part_specification_errors
    (reg : PluginRegistry) (dirs : ProjectDirs) (name : String) :
    (∀ v : PyValue, v.isDict = false →
      build_part reg dirs name v
        = Except.error (.partSpecificationError name (.message "part definition is malformed")))
    ∧ (∀ entries cls errs,
        get_plugin_class reg (resolve_plugin_name name entries).2 = Except.ok cls →
        cls.unmarshal (.dict entries) = Except.error (.validationError errs) →
        build_part reg dirs name (.dict entries)
          = Except.error (.partSpecificationError name (.errorList errs)))
    ∧ (∀ entries cls msg,
        get_plugin_class reg (resolve_plugin_name name entries).2 = Except.ok cls →
        cls.unmarshal (.dict entries) = Except.error (.valueError msg) →
        build_part reg dirs name (.dict entries)
          = Except.error (.partSpecificationError name (.message msg))) := by
  refine ⟨?_, ?_, ?_⟩
  · intro v hv
    cases v <;> simp_all [build_part, PyValue.isDict]
  · intro entries cls errs hget hum
    simp [build_part, hget, validate_and_make_part, hum]
  · intro entries cls msg hget hum
    simp [build_part, hget, validate_and_make_part, hum]

/-- C4 witness: the non-mapping specification `3` for part `foo` fails with
the malformed-definition error. -/
theorem C4_witness :
    PyValue.isDict (.int 3) = false
    ∧ build_part sampleEnv.plugins { work_dir := "." } "foo" (.int 3)
        = Except.error (.partSpecificationError "foo" (.message "part definition is malformed")) :=
  ⟨rfl, (C4_part_specification_errors sampleEnv.plugins { work_dir := "." } "foo").1
    (.int 3) rfl⟩

/-- Erasing a key from a dictionary makes the lookup of that key fail. -/
theorem lookup_eraseKey (k : String) (l : List (String × PyValue)) :
    (eraseKey k l).lookup k = Option.none := by
  induction l with
  | nil => rfl
  | cons e t ih =>
    by_cases h : e.1 = k
    · simpa [eraseKey, List.filter_cons, h] using ih
    · have hb : (e.1 != k) = true := by simp [bne, h]
      have hk : (k == e.1) = false := by
        simp [BEq.beq]
        exact fun hc => h hc.symm
      simpa [eraseKey, List.filter_cons, hb, List.lookup, hk] using ih

/-- C9: a falsy `plugin` value (empty string or None) behaves exactly as an
omitted `plugin` field: the resolution outcome is the same as on the
specification with the key removed, the part's own name becomes the plugin
name, and a failed lookup raises the undefined-plugin error, never the
invalid-plugin error. -/
theorem C9_falsy_plugin_treated_as_omitted
    (reg : PluginRegistry) (dirs : ProjectDirs) (name : String)
    (entries : List (String × PyValue)) (v : PyValue)
    (hv : entries.lookup "plugin" = some v)
    (hfalsy : v = PyValue.str "" ∨ v = PyValue.none) :
    resolve_plugin_name name entries
      = resolve_plugin_name name (eraseKey "plugin" entries)
    ∧ resolve_plugin_name name entries = (true, PyValue.str name)
    ∧ (get_plugin_class reg (PyValue.str name) = Except.error () →
        build_part reg dirs name (.dict entries)
          = Except.error (.undefinedPlugin name))
    ∧ (∀ pv pn, CraftError.undefinedPlugin name ≠ CraftError.invalidPlugin pv pn) := by
  have hres : resolve_plugin_name name entries = (true, PyValue.str name) := by
    rcases hfalsy with h | h <;> subst h <;> simp [resolve_plugin_name, dictGet, hv, truthy]
  have herase : resolve_plugin_name name (eraseKey "plugin" entries)
      = (true, PyValue.str name) := by
    simp [resolve_plugin_name, dictGet, lookup_eraseKey, truthy]
  refine ⟨hres.trans herase.symm, hres, ?_, ?_⟩
  · intro hget
    simp [build_part, hres, hget]
  · intro pv pn h
    exact CraftError.noConfusion h

/-- C9 witness: the part `foo` whose specification carries `plugin: None`
under a registry knowing only the `nil` plugin fails with the
undefined-plugin error. -/
theorem C9_witness :
    [("plugin", PyValue.none)].lookup "plugin" = some PyValue.none
    ∧ build_part sampleEnv.plugins { work_dir := "." } "foo"
        (.dict [("plugin", PyValue.none)])
        = Except.error (.undefinedPlugin "foo") :=
  ⟨rfl, (C9_falsy_plugin_treated_as_omitted sampleEnv.plugins { work_dir := "." }
      "foo" [("plugin", PyValue.none)] PyValue.none rfl (Or.inr rfl)).2.2.1 rfl⟩

/-- C3 (code bug): the application name consisting of the letter A followed
by a newline is outside the language of the regular expression
^[A-Za-z][0-9A-Za-z_]*$ (where $ denotes the end of the input), yet Python's
re.match accepts it because $ also matches just before a single trailing
newline, so the constructor succeeds instead of failing, contradicting both
the claim and the constructor's own documentation (names contain only
letters, digits and underscores). -/
theorem C3_trailing_newline_accepted :
    strict_app_name_ok ("A" ++ String.singleton (Char.ofNat 10)) = false
    ∧ matches_app_name ("A" ++ String.singleton (Char.ofNat 10)) = true
    ∧ exceptOk (lifecycle_manager_init sampleEnv sample_all_parts
        ("A" ++ String.singleton (Char.ofNat 10)) "/cache" "." "" "" 1
        Option.none []).2 = true := by
  refine ⟨by decide, by decide, by decide⟩

/-- C5: with a valid application name, a parts dictionary without a `parts`
key makes the constructor raise the missing-parts ValueError with an empty
effect trace — before any part is built and before the Sequencer or the
Executor is created. -/
theorem C5_missing_parts_key_fatal
    (env : Env) (entries : List (String × PyValue))
    (app cache wd arch base : String) (pbc : Nat)
    (ebp : Option (List String)) (custom : List (String × PyValue))
    (hname : matches_app_name app = true)
    (hkey : entries.lookup "parts" = Option.none) :
    lifecycle_manager_init env (.dict entries) app cache wd arch base pbc ebp custom
      = ([], Except.error (.valueError "parts definition is missing")) := by
  simp [lifecycle_manager_init, hname, hkey]

/-- C5 witness: the empty dictionary has no `parts` key and the constructor
fails with the missing-parts ValueError at the valid name `app`. -/
theorem C5_witness :
    matches_app_name "app" = true
    ∧ ([] : List (String × PyValue)).lookup "parts" = Option.none
    ∧ lifecycle_manager_init sampleEnv (.dict []) "app" "/cache" "." "" "" 1
        Option.none []
        = ([], Except.error (.valueError "parts definition is missing")) :=
  ⟨by decide, rfl,
    C5_missing_parts_key_fatal sampleEnv [] "app" "/cache" "." "" "" 1
      Option.none [] (by decide) rfl⟩

/-- C10: the constructor checks its inputs in a fixed order — an application
name rejected by the regex check raises InvalidApplicationName regardless of
how malformed `all_parts` is; with a valid name, a non-dictionary
`all_parts` raises the TypeError; and when the name is valid, `all_parts` is
a dictionary and the `parts` key is present, construction proceeds to the
building phase (directories, project info, parts, Sequencer, Executor). -/
theorem C10_constructor_check_order
    (env : Env) (ap : PyValue) (app cache wd arch base : String) (pbc : Nat)
    (ebp : Option (List String)) (custom : List (String × PyValue)) :
    (matches_app_name app = false →
      lifecycle_manager_init env ap app cache wd arch base pbc ebp custom
        = ([], Except.error (.invalidApplicationName app)))
    ∧ (matches_app_name app = true → ap.isDict = false →
        lifecycle_manager_init env ap app cache wd arch base pbc ebp custom
          = ([], Except.error (.typeError "parts definition must be a dictionary")))
    ∧ (∀ entries pv, matches_app_name app = true →
        entries.lookup "parts" = some pv →
        lifecycle_manager_init env (.dict entries) app cache wd arch base pbc ebp custom
          = init_after_checks env entries app cache wd arch base pbc ebp custom) := by
  refine ⟨?_, ?_, ?_⟩
  · intro hname
    simp [lifecycle_manager_init, hname]
  · intro hname hdict
    cases ap <;> simp_all [lifecycle_manager_init, PyValue.isDict]
  · intro entries pv hname hkey
    simp [lifecycle_manager_init, hname, hkey]

/-- C10 witness: the invalid name `1bad` dominates a malformed `all_parts`;
with the valid name `app` the non-dictionary `all_parts` value `3` raises
the TypeError; and with `app` and the sample parts dictionary the
constructor reaches the building phase. -/
theorem C10_witness :
    (matches_app_name "1bad" = false
      ∧ lifecycle_manager_init sampleEnv (.int 3) "1bad" "/cache" "." "" "" 1
          Option.none []
          = ([], Except.error (.invalidApplicationName "1bad")))
    ∧ (matches_app_name "app" = true ∧ PyValue.isDict (.int 3) = false
      ∧ lifecycle_manager_init sampleEnv (.int 3) "app" "/cache" "." "" "" 1
          Option.none []
          = ([], Except.error (.typeError "parts definition must be a dictionary")))
    ∧ lifecycle_manager_init sampleEnv sample_all_parts "app" "/cache" "." "" "" 1
        Option.none []
        = init_after_checks sampleEnv
            [("parts", .dict
              [("foo", .dict [("plugin", .str "nil")]),
               ("bar", .dict [("plugin", .str "nil"), ("after", .list [.str "foo"])])])]
            "app" "/cache" "." "" "" 1 Option.none [] :=
  ⟨⟨by decide,
    (C10_constructor_check_order sampleEnv (.int 3) "1bad" "/cache" "." "" "" 1
      Option.none []).1 (by decide)⟩,
   ⟨by decide, rfl,
    (C10_constructor_check_order sampleEnv (.int 3) "app" "/cache" "." "" "" 1
      Option.none []).2.1 (by decide) rfl⟩,
   (C10_constructor_check_order sampleEnv sample_all_parts "app" "/cache" "." "" "" 1
      Option.none []).2.2
     [("parts", .dict
       [("foo", .dict [("plugin", .str "nil")]),
        ("bar", .dict [("plugin", .str "nil"), ("after", .list [.str "foo"])])])]
     (.dict
       [("foo", .dict [("plugin", .str "nil")]),
        ("bar", .dict [("plugin", .str "nil"), ("after", .list [.str "foo"])])])
     (by decide) rfl⟩

/-- A successful constructor run stores exactly the `ProjectInfo` value built
from the constructor arguments in the returned manager. -/
theorem init_after_checks_ok_project_info
    (env : Env) (entries : List (String × PyValue))
    (app cache wd arch base : String) (pbc : Nat)
    (ebp : Option (List String)) (custom : List (String × PyValue))
    (lm0 : LifecycleManager)
    (h : (init_after_checks env entries app cache wd arch base pbc ebp custom).2
      = Except.ok lm0) :
    lm0.project_info = make_project_info env app cache wd arch base pbc custom := by
  simp only [init_after_checks] at h
  split at h
  · split at h
    · simp at h
    · simp at h
      rw [← h]
  · simp at h

/-- C6: every public operation of the manager leaves the `ProjectInfo` value
unchanged — plan, clean, reload_state and action_executor preserve it, the
`project_info` property returns it — and any manager produced by a
successful constructor run carries exactly the `ProjectInfo` built once from
the constructor arguments. -/
theorem C6_project_info_immutable
    (env : Env) (lm : LifecycleManager) (target : Step)
    (names pns : Option (List String)) (stepOpt : Option Step) :
    ((LifecycleManager.plan env lm target names).2.2).project_info = lm.project_info
    ∧ (LifecycleManager.clean lm stepOpt pns).project_info = lm.project_info
    ∧ (LifecycleManager.reload_state env lm).project_info = lm.project_info
    ∧ (LifecycleManager.action_executor lm).executor = lm.executor
    ∧ LifecycleManager.project_info_property lm = lm.project_info
    ∧ (∀ (ap : PyValue) (app cache wd arch base : String) (pbc : Nat)
        (ebp : Option (List String)) (custom : List (String × PyValue))
        (lm0 : LifecycleManager),
        (lifecycle_manager_init env ap app cache wd arch base pbc ebp custom).2
          = Except.ok lm0 →
        lm0.project_info = make_project_info env app cache wd arch base pbc custom) := by
  refine ⟨rfl, rfl, rfl, rfl, rfl, ?_⟩
  intro ap app cache wd arch base pbc ebp custom lm0 h
  simp only [lifecycle_manager_init] at h
  split at h
  · simp at h
  · split at h
    · split at h
      · simp at h
      · exact init_after_checks_ok_project_info env _ app cache wd arch base pbc ebp
          custom lm0 h
    · simp at h

/-- C6 witness: the sample constructor run returns `sample_manager`, whose
stored `ProjectInfo` is exactly the one built from the sample arguments. -/
theorem C6_witness :
    sample_manager.project_info
      = make_project_info sampleEnv "app" "/cache" "." "" "" 1 [] :=
  (C6_project_info_immutable sampleEnv sample_manager Step.STAGE Option.none
      Option.none Option.none).2.2.2.2.2
    sample_all_parts "app" "/cache" "." "" "" 1 Option.none [] sample_manager rfl

/-- C7: cleaning without an explicit step argument is the same operation as
cleaning from PULL, and it performs a full reset of the selected parts: no
step record for a selected part survives in the executor's store. -/
theorem C7_clean_defaults_to_pull
    (lm : LifecycleManager) (ns : Option (List String)) :
    LifecycleManager.clean lm Option.none ns
      = LifecycleManager.clean lm (some Step.PULL) ns
    ∧ ∀ p, (clean_selected lm.executor ns).contains p = true →
        ∀ s r, ((p, s), r) ∉ (LifecycleManager.clean lm Option.none ns).executor.store := by
  refine ⟨rfl, ?_⟩
  intro p hp s r hmem
  simp only [LifecycleManager.clean, Executor.clean, Option.getD] at hmem
  rcases List.mem_map.mp hmem with ⟨e, he, heq⟩
  have hkey : e.1 = (p, s) := by
    split at heq
    · exact congrArg Prod.fst heq
    · exact congrArg Prod.fst heq
  have hpred := (List.mem_filter.mp he).2
  rw [hkey] at hpred
  simp [Nat.zero_le, Step.toNat] at hpred
  exact hpred (by simpa using hp)

/-- C7 witness: after a default clean of part `foo` on the sample manager, no
PULL record for `foo` remains. -/
theorem C7_witness :
    (clean_selected sample_manager.executor (some ["foo"])).contains "foo" = true
    ∧ (("foo", Step.PULL), ({ fingerprint := "", outdated := false } : StepRecord))
        ∉ (LifecycleManager.clean sample_manager Option.none (some ["foo"])).executor.store :=
  ⟨by decide,
    (C7_clean_defaults_to_pull sample_manager (some ["foo"])).2 "foo" (by decide)
      Step.PULL { fingerprint := "", outdated := false }⟩

/-- C8: every refresh_packages_list call performs the stage-packages refresh
with the project's cache directory and target architecture, performs the
build-packages refresh exactly when `system` is true, and neither planning
nor executing an action ever performs a package-repository refresh. -/
theorem C8_refresh_packages_contract
    (env : Env) (lm : LifecycleManager) (system : Bool) (target : Step)
    (names : Option (List String)) (ex : ExecutorState) (a : Action) :
    Effect.refreshStagePackages lm.project_info.cache_dir lm.target_arch
      ∈ LifecycleManager.refresh_packages_list lm system
    ∧ (Effect.refreshBuildPackages ∈ LifecycleManager.refresh_packages_list lm system
        ↔ system = true)
    ∧ (∀ e, e ∈ (LifecycleManager.plan env lm target names).2.1 → e.isRefresh = false)
    ∧ (∀ e, e ∈ (Executor.run env ex a).1 → e.isRefresh = false) := by
  refine ⟨?_, ?_, ?_, ?_⟩
  · simp [LifecycleManager.refresh_packages_list]
  · cases system <;> simp [LifecycleManager.refresh_packages_list]
  · intro e he
    simp only [LifecycleManager.plan, Sequencer.plan] at he
    split at he
    · simp at he
    · simp only [List.mem_map] at he
      rcases he with ⟨k, _, rfl⟩
      rfl
  · intro e he
    rcases a with ⟨pn, st, ty, rsn⟩
    simp only [Executor.run] at he
    split at he
    · simp at he
    · cases ty <;> simp at he
      case RUN => subst he; rfl
      case RERUN => rcases he with rfl | rfl <;> rfl
      case REAPPLY => subst he; rfl

/-- A sample action used to instantiate the executor argument of C8. -/
def sample_action : Action :=
  { part_name := "foo", step := .PULL, action_type := .RUN, reason := Option.none }

/-- C8 witness: on the sample manager with `system := true`, the trace of
refresh_packages_list contains both the stage-packages refresh (with the
sample cache directory and target architecture) and the build-packages
refresh. -/
theorem C8_witness :
    Effect.refreshStagePackages sample_manager.project_info.cache_dir
        sample_manager.target_arch
      ∈ LifecycleManager.refresh_packages_list sample_manager true
    ∧ Effect.refreshBuildPackages
      ∈ LifecycleManager.refresh_packages_list sample_manager true :=
  ⟨(C8_refresh_packages_contract sampleEnv sample_manager true Step.STAGE Option.none
      sample_manager.executor sample_action).1,
   (C8_refresh_packages_contract sampleEnv sample_manager true Step.STAGE Option.none
      sample_manager.executor sample_action).2.1.mpr rfl⟩

end CraftParts
